import Mathlib

set_option maxRecDepth 100000

/-!
Shallow embedding of `src/assets/service-worker.js` (Shopify theme service
worker): the caching decision engine — classifier, cache-first and
network-first strategies, dynamic-cache eviction, activate-time generation
rotation, and the message (control) channel.

Modelling conventions:
* A `Response` / `Request` keeps only the fields the worker reads.
* A cache (the Cache API object) is a list of (request, response) entries in
  insertion order; `cache.put` removes any entry for the same request and
  appends at the end, `cache.keys()` is the insertion-ordered key list.
* The `caches` storage (CacheStorage) is a list of (name, cache) pairs in
  creation order; `caches.open` creates an empty cache on first use.
* `fetch` (the network) is a function `Request → Option Response`; `none`
  models the fetch promise rejecting (network failure / timeout).
* Every strategy / handler additionally returns the list of cache operations
  it performed (`CacheOp`), so frame properties ("no read, no write") are
  statements about that trace.
-/

/-- JS `String.prototype` helper: is `pat` a prefix of `s` (as char lists)? -/
def charsPrefixOf : List Char → List Char → Bool
  | [], _ => true
  | _ :: _, [] => false
  | a :: as, b :: bs => a == b && charsPrefixOf as bs

/-- Does `pat` occur as a contiguous run inside `s` (as char lists)? -/
def charsInfixOf (pat : List Char) : List Char → Bool
  | [] => charsPrefixOf pat []
  | b :: bs => charsPrefixOf pat (b :: bs) || charsInfixOf pat bs

/-- JS `str.includes(sub)`: substring containment test. -/
def strIncludes (s sub : String) : Bool :=
  charsInfixOf sub.toList s.toList

/-- Does `s` end with `suffix`? (An `$`-anchored regex literal match.) -/
def strEndsWith (s suffix : String) : Bool :=
  charsPrefixOf suffix.toList.reverse s.toList.reverse

/-- Does `s` start with `pre`? (JS `str.startsWith(pre)`.) -/
def strStartsWith (s pre : String) : Bool :=
  charsPrefixOf pre.toList s.toList

/-- Response snapshot: the fields of a `Response` the worker reads or sets. -/
structure Response where
  status : Nat
  statusText : String
  headers : List (String × String)
  body : String
deriving DecidableEq

/-- Request descriptor: method plus URL; `pathname` is `new URL(request.url).pathname`.
The full structure is the cache key identity. -/
structure Request where
  method : String
  url : String
  pathname : String
deriving DecidableEq

/-- A Cache API cache: entries in insertion order. -/
abbrev Cache := List (Request × Response)

/-- The CacheStorage (`caches`): named caches in creation order. -/
abbrev CacheStorage := List (String × Cache)

/-- `cache.match(request)`: first stored response for this request identity. -/
def cacheMatch (c : Cache) (req : Request) : Option Response :=
  (c.find? (fun e => decide (e.1 = req))).map Prod.snd

/-- `cache.put(request, response)`: replace any entry for this key, appending
the new entry at the end of the insertion order (Cache API semantics). -/
def cachePut (c : Cache) (req : Request) (resp : Response) : Cache :=
  c.filter (fun e => decide (e.1 ≠ req)) ++ [(req, resp)]

/-- `cache.keys()`: keys in insertion order. -/
def cacheKeys (c : Cache) : List Request :=
  c.map Prod.fst

/-- Generic deletion of all entries under a key from an association list
(`cache.delete(key)` / `caches.delete(name)`). -/
def deleteKey {K V : Type} [DecidableEq K] (l : List (K × V)) (k : K) : List (K × V) :=
  l.filter (fun e => decide (e.1 ≠ k))

/-- `cache.delete(request)`. -/
def cacheDelete (c : Cache) (req : Request) : Cache :=
  deleteKey c req

/-- `caches.open(name)`: returns the named cache, creating an empty one (at the
end of the creation order) when absent, together with the updated storage. -/
def cachesOpen (cs : CacheStorage) (name : String) : Cache × CacheStorage :=
  match cs.find? (fun e => decide (e.1 = name)) with
  | some e => (e.2, cs)
  | none => ([], cs ++ [(name, [])])

/-- Write back the (mutated) named cache into the storage. -/
def cachesSet (cs : CacheStorage) (name : String) (c : Cache) : CacheStorage :=
  cs.map (fun e => if e.1 = name then (name, c) else e)

/-- `caches.keys()`: the names of all caches. -/
def cachesKeys (cs : CacheStorage) : List String :=
  cs.map Prod.fst

/-- `caches.delete(name)`. -/
def cachesDeleteName (cs : CacheStorage) (name : String) : CacheStorage :=
  deleteKey cs name

/-- `const CACHE_VERSION = 'shopify-theme-v1'`. -/
def CACHE_VERSION : String := "shopify-theme-v1"

/-- `const STATIC_CACHE = CACHE_VERSION + '-static'`. -/
def STATIC_CACHE : String := CACHE_VERSION ++ "-static"

/-- `const DYNAMIC_CACHE = CACHE_VERSION + '-dynamic'`. -/
def DYNAMIC_CACHE : String := CACHE_VERSION ++ "-dynamic"

/-- `const MAX_DYNAMIC_CACHE_SIZE = 50`. -/
def MAX_DYNAMIC_CACHE_SIZE : Nat := 50

/-- Trace of generation-store / network operations a handler performs. -/
inductive CacheOp where
  | openGen (name : String)
  | read (name : String) (req : Request)
  | keysList (name : String)
  | write (name : String) (req : Request)
  | del (name : String) (req : Request)
  | delGeneration (name : String)
  | netFetch (req : Request)
deriving DecidableEq

/-- `isStaticAsset(url)`: `url.pathname.match(/\.(css|js|woff2?|ttf|eot)$/)`.
The anchored alternation holds exactly when the pathname ends in one of the
six literal suffixes (`woff2?` contributes both `.woff` and `.woff2`). -/
def isStaticAsset (pathname : String) : Bool :=
  strEndsWith pathname ".css" || strEndsWith pathname ".js" ||
  strEndsWith pathname ".woff" || strEndsWith pathname ".woff2" ||
  strEndsWith pathname ".ttf" || strEndsWith pathname ".eot"

/-- `isImage(url)`: `url.pathname.match(/\.(jpg|jpeg|png|gif|webp|svg|avif)$/)`. -/
def isImage (pathname : String) : Bool :=
  strEndsWith pathname ".jpg" || strEndsWith pathname ".jpeg" ||
  strEndsWith pathname ".png" || strEndsWith pathname ".gif" ||
  strEndsWith pathname ".webp" || strEndsWith pathname ".svg" ||
  strEndsWith pathname ".avif"

/-- The excluded-path test of the fetch listener: the four `url.pathname.includes(...)`
checks for admin, checkout and cart-mutation paths. -/
def isExcludedPath (pathname : String) : Bool :=
  strIncludes pathname "/admin" || strIncludes pathname "/checkout" ||
  strIncludes pathname "/cart/add" || strIncludes pathname "/cart/update"

/-- Body of the offline fallback page synthesized by `networkFirst` (the template
literal of the source; CSS braces appear as escapes, quotes escaped). -/
def offlineBody : String := "
      <!DOCTYPE html>
      <html>
        <head>
          <meta charset=\"utf-8\">
          <meta name=\"viewport\" content=\"width=device-width,initial-scale=1\">
          <title>Sin conexión</title>
          <style>
            body \x7b
              font-family: -apple-system, BlinkMacSystemFont, \x27Segoe UI\x27, sans-serif;
              display: flex;
              align-items: center;
              justify-content: center;
              min-height: 100vh;
              margin: 0;
              background: #f5f5f5;
              text-align: center;
              padding: 20px;
            \x7d
            .offline-message \x7b
              max-width: 400px;
            \x7d
            h1 \x7b
              font-size: 24px;
              margin-bottom: 16px;
            \x7d
            p \x7b
              color: #666;
              line-height: 1.6;
            \x7d
            button \x7b
              margin-top: 20px;
              padding: 12px 24px;
              background: #000;
              color: #fff;
              border: none;
              border-radius: 4px;
              cursor: pointer;
              font-size: 16px;
            \x7d
          </style>
        </head>
        <body>
          <div class=\"offline-message\">
            <h1>📱 Sin conexión</h1>
            <p>No hay conexión a internet. Por favor, verifica tu conexión e intenta nuevamente.</p>
            <button onclick=\"location.reload()\">Reintentar</button>
          </div>
        </body>
      </html>
    "

/-- The `new Response(offlineBody, { status: 503, statusText: 'Service Unavailable',
headers: { Content-Type: text/html } })` built by `networkFirst`. -/
def offlineResponse : Response :=
  { status := 503
    statusText := "Service Unavailable"
    headers := [("Content-Type", "text/html")]
    body := offlineBody }

/-- Header lookup in a response's header mapping. -/
def headerGet (headers : List (String × String)) (name : String) : Option String :=
  (headers.find? (fun e => decide (e.1 = name))).map Prod.snd

/-- Cache-level computation of `limitCacheSize`: read `cache.keys()`; when the
key count exceeds `maxSize`, delete the oldest `keys.length - maxSize` keys
(`keys.slice(0, keys.length - maxSize)`, each removed via `cache.delete`).
Returns the resulting cache and the list of deleted keys. -/
def limitCacheSizeCore (cache : Cache) (maxSize : Nat) : Cache × List Request :=
  let keys := cacheKeys cache
  if maxSize < keys.length then
    let keysToDelete := keys.take (keys.length - maxSize)
    (keysToDelete.foldl cacheDelete cache, keysToDelete)
  else
    (cache, [])

/-- `limitCacheSize(cacheName, maxSize)`: opens the named cache in the storage
and applies the eviction computation, tracing the operations performed. -/
def limitCacheSize (cs : CacheStorage) (cacheName : String) (maxSize : Nat) :
    CacheStorage × List CacheOp :=
  let p := cachesOpen cs cacheName
  let q := limitCacheSizeCore p.1 maxSize
  (cachesSet p.2 cacheName q.1,
   [CacheOp.openGen cacheName, CacheOp.keysList cacheName] ++
     q.2.map (CacheOp.del cacheName))

/-- `cacheFirst(request)`: serve from `STATIC_CACHE` when present; otherwise
fetch, caching the response iff its status is 200; when the fetch throws,
the source runs `return cache.match(request) || new Response('Offline', { status: 503 })`
— `cache.match` returns a promise, which is always truthy, so the `||`
right-hand side is dead code and the async function resolves to the match
result: the cached response, or `undefined` (here `none`) on a miss. -/
def cacheFirst (net : Request → Option Response) (cs : CacheStorage) (req : Request) :
    Option Response × CacheStorage × List CacheOp :=
  let p := cachesOpen cs STATIC_CACHE
  let cache := p.1
  let cs1 := p.2
  match cacheMatch cache req with
  | some cached =>
    (some cached, cs1, [CacheOp.openGen STATIC_CACHE, CacheOp.read STATIC_CACHE req])
  | none =>
    match net req with
    | some response =>
      if response.status = 200 then
        (some response, cachesSet cs1 STATIC_CACHE (cachePut cache req response),
         [CacheOp.openGen STATIC_CACHE, CacheOp.read STATIC_CACHE req,
          CacheOp.netFetch req, CacheOp.write STATIC_CACHE req])
      else
        (some response, cs1,
         [CacheOp.openGen STATIC_CACHE, CacheOp.read STATIC_CACHE req,
          CacheOp.netFetch req])
    | none =>
      (cacheMatch cache req, cs1,
       [CacheOp.openGen STATIC_CACHE, CacheOp.read STATIC_CACHE req,
        CacheOp.netFetch req, CacheOp.read STATIC_CACHE req])

/-- `networkFirst(request)`: fetch first; on status 200 store a clone in
`DYNAMIC_CACHE` and run `limitCacheSize(DYNAMIC_CACHE, MAX_DYNAMIC_CACHE_SIZE)`;
on a thrown fetch fall back to the cache, and synthesize the offline page
(503 / Service Unavailable / text/html) when the cache also misses. -/
def networkFirst (net : Request → Option Response) (cs : CacheStorage) (req : Request) :
    Option Response × CacheStorage × List CacheOp :=
  let p := cachesOpen cs DYNAMIC_CACHE
  let cache := p.1
  let cs1 := p.2
  match net req with
  | some response =>
    if response.status = 200 then
      let cs2 := cachesSet cs1 DYNAMIC_CACHE (cachePut cache req response)
      let q := limitCacheSize cs2 DYNAMIC_CACHE MAX_DYNAMIC_CACHE_SIZE
      (some response, q.1,
       [CacheOp.openGen DYNAMIC_CACHE, CacheOp.netFetch req,
        CacheOp.write DYNAMIC_CACHE req] ++ q.2)
    else
      (some response, cs1, [CacheOp.openGen DYNAMIC_CACHE, CacheOp.netFetch req])
  | none =>
    match cacheMatch cache req with
    | some cached =>
      (some cached, cs1,
       [CacheOp.openGen DYNAMIC_CACHE, CacheOp.netFetch req,
        CacheOp.read DYNAMIC_CACHE req])
    | none =>
      (some offlineResponse, cs1,
       [CacheOp.openGen DYNAMIC_CACHE, CacheOp.netFetch req,
        CacheOp.read DYNAMIC_CACHE req])

/-- Outcome of the fetch listener: either the handler returned without
`event.respondWith` (the request passes through to the network untouched), or
it responded with a strategy's result. -/
inductive FetchAction where
  | passThrough
  | respondWith (response : Option Response) (storage : CacheStorage) (ops : List CacheOp)
deriving DecidableEq

/-- The `fetch` event listener: bypass non-GET requests and excluded paths;
dispatch static assets and images to `cacheFirst`, everything else to
`networkFirst`. -/
def fetchHandler (net : Request → Option Response) (cs : CacheStorage) (req : Request) :
    FetchAction :=
  if req.method ≠ "GET" then
    FetchAction.passThrough
  else if isExcludedPath req.pathname then
    FetchAction.passThrough
  else if isStaticAsset req.pathname then
    let t := cacheFirst net cs req
    FetchAction.respondWith t.1 t.2.1 t.2.2
  else if isImage req.pathname then
    let t := cacheFirst net cs req
    FetchAction.respondWith t.1 t.2.1 t.2.2
  else
    let t := networkFirst net cs req
    FetchAction.respondWith t.1 t.2.1 t.2.2

/-- The storage after a fetch-listener outcome (pass-through leaves it as is). -/
def actionStorage (cs : CacheStorage) : FetchAction → CacheStorage
  | FetchAction.passThrough => cs
  | FetchAction.respondWith _ cs2 _ => cs2

/-- The operation trace of a fetch-listener outcome. -/
def actionOps : FetchAction → List CacheOp
  | FetchAction.passThrough => []
  | FetchAction.respondWith _ _ ops => ops

/-- The deletion predicate of the activate listener: caches whose name starts
with `'shopify-theme-'` and equals neither `STATIC_CACHE` nor `DYNAMIC_CACHE`. -/
def shouldDeleteOnActivate (name : String) : Bool :=
  strStartsWith name "shopify-theme-" &&
    !(name = STATIC_CACHE : Bool) && !(name = DYNAMIC_CACHE : Bool)

/-- The `activate` listener: enumerate `caches.keys()`, delete every cache
matching `shouldDeleteOnActivate`. Returns the storage and the trace. -/
def activateHandler (cs : CacheStorage) : CacheStorage × List CacheOp :=
  let cacheNames := cachesKeys cs
  let toDelete := cacheNames.filter shouldDeleteOnActivate
  (toDelete.foldl cachesDeleteName cs, toDelete.map CacheOp.delGeneration)

/-- The `clearCache` branch of the message listener: enumerate `caches.keys()`
and delete every cache. -/
def clearCacheHandler (cs : CacheStorage) : CacheStorage × List CacheOp :=
  let cacheNames := cachesKeys cs
  (cacheNames.foldl cachesDeleteName cs, cacheNames.map CacheOp.delGeneration)

/-- The payload of a `message` event (`event.data`). -/
structure MessageData where
  action : String
deriving DecidableEq

/-- The `message` listener: `skipWaiting` calls `self.skipWaiting()` (no cache
interaction; the returned Bool records the call); `clearCache` deletes every
cache; any other action does nothing. -/
def messageHandler (cs : CacheStorage) (data : MessageData) : CacheStorage × List CacheOp × Bool :=
  let skipped := data.action = "skipWaiting"
  if data.action = "clearCache" then
    let q := clearCacheHandler cs
    (q.1, q.2, skipped)
  else
    (cs, [], skipped)

/-- Spec-side request classes (§4.1 of the spec). -/
inductive ReqClass where
  | staticAsset
  | image
  | dynamicPage
deriving DecidableEq

/-- Spec-side extension set for static assets (the spec's {css, js, woff,
woff2, ttf, eot}, written as the `.`-suffixes a path's extension denotes). -/
def staticExtsSpec : List String := [".css", ".js", ".woff", ".woff2", ".ttf", ".eot"]

/-- Spec-side extension set for images (the spec's {jpg, jpeg, png, gif, webp,
svg, avif}). -/
def imageExtsSpec : List String := [".jpg", ".jpeg", ".png", ".gif", ".webp", ".svg", ".avif"]

/-- Classifier written from the spec's words: a path whose extension (its
case-sensitive `.`-suffix) is in the static set classifies as static-asset,
in the image set as image, and anything else as dynamic-page. -/
def classifySpec (pathname : String) : ReqClass :=
  if staticExtsSpec.any (fun e => strEndsWith pathname e) then
    ReqClass.staticAsset
  else if imageExtsSpec.any (fun e => strEndsWith pathname e) then
    ReqClass.image
  else
    ReqClass.dynamicPage

/-- One write of `networkFirst`'s success path into the dynamic cache: store the
response, then run the eviction computation with `MAX_DYNAMIC_CACHE_SIZE`. -/
def dynamicWriteStep (c : Cache) (w : Request × Response) : Cache :=
  (limitCacheSizeCore (cachePut c w.1 w.2) MAX_DYNAMIC_CACHE_SIZE).1

section Lemmas

variable {K V : Type} [DecidableEq K]

theorem foldl_deleteKey (ks : List K) (l : List (K × V)) :
    ks.foldl deleteKey l = l.filter (fun e => decide (e.1 ∉ ks)) := by
  induction ks generalizing l with
  | nil => simp
  | cons k ks ih =>
    rw [List.foldl_cons, ih]
    simp only [deleteKey, List.filter_filter]
    apply List.filter_congr
    intro e _
    by_cases h1 : e.1 = k <;> by_cases h2 : e.1 ∈ ks <;> simp [h1, h2]

theorem filter_not_mem_take (l : List (K × V)) (m : Nat)
    (h : (l.map Prod.fst).Nodup) :
    l.filter (fun e => decide (e.1 ∉ (l.map Prod.fst).take m)) = l.drop m := by
  induction l generalizing m with
  | nil => simp
  | cons e t ih =>
    rw [List.map_cons, List.nodup_cons] at h
    obtain ⟨hni, hnd⟩ := h
    cases m with
    | zero => simp
    | succ m =>
      rw [List.map_cons, List.take_succ_cons, List.drop_succ_cons, List.filter_cons]
      have he : (decide (e.1 ∉ e.1 :: (t.map Prod.fst).take m)) = false := by simp
      rw [he]
      simp only [Bool.false_eq_true, if_false]
      have hcongr : ∀ x ∈ t,
          (decide (x.1 ∉ e.1 :: (t.map Prod.fst).take m) : Bool)
            = decide (x.1 ∉ (t.map Prod.fst).take m) := by
        intro x hx
        have hne : x.1 ≠ e.1 := by
          intro hcontra
          exact hni (hcontra ▸ List.mem_map_of_mem Prod.fst hx)
        simp [List.mem_cons, hne]
      rw [List.filter_congr hcongr, ih m hnd]

end Lemmas

theorem cacheDelete_eq_deleteKey : cacheDelete = @deleteKey Request Response _ := rfl

theorem cachesDeleteName_eq_deleteKey :
    cachesDeleteName = @deleteKey String Cache _ := rfl

/-- The eviction computation, when the key count exceeds the bound and the key
list has no duplicates, keeps exactly the newest `maxSize` entries: it deletes
the oldest `length - maxSize` and the result is the insertion-order suffix. -/
theorem limitCacheSizeCore_overflow (c : Cache) (n : Nat)
    (hnd : (cacheKeys c).Nodup) (h : n < c.length) :
    (limitCacheSizeCore c n).1 = c.drop (c.length - n) ∧
      ((limitCacheSizeCore c n).1).length = n ∧
      (limitCacheSizeCore c n).2 = (cacheKeys c).take (c.length - n) := by
  have hlen : (cacheKeys c).length = c.length := by
    simp [cacheKeys]
  have hcond : n < (cacheKeys c).length := by rw [hlen]; exact h
  have hbranch : limitCacheSizeCore c n =
      (((cacheKeys c).take ((cacheKeys c).length - n)).foldl cacheDelete c,
        (cacheKeys c).take ((cacheKeys c).length - n)) := by
    simp only [limitCacheSizeCore, if_pos hcond]
  have hdrop : ((cacheKeys c).take ((cacheKeys c).length - n)).foldl cacheDelete c
      = c.drop (c.length - n) := by
    rw [cacheDelete_eq_deleteKey, foldl_deleteKey, hlen]
    exact filter_not_mem_take c (c.length - n) hnd
  refine ⟨?_, ?_, ?_⟩
  · rw [hbranch]; exact hdrop
  · rw [hbranch]
    simp only [hdrop, List.length_drop]
    omega
  · rw [hbranch, hlen]

/-- `limitCacheSizeCore` below or at the bound is a no-op. -/
theorem limitCacheSizeCore_noop (c : Cache) (n : Nat) (h : c.length ≤ n) :
    limitCacheSizeCore c n = (c, []) := by
  have : ¬ n < (cacheKeys c).length := by
    simp only [cacheKeys, List.length_map]; omega
  simp only [limitCacheSizeCore, if_neg this]

/-- `cache.put` keeps the key list duplicate-free. -/
theorem nodupKeys_cachePut (c : Cache) (req : Request) (resp : Response)
    (h : (cacheKeys c).Nodup) : (cacheKeys (cachePut c req resp)).Nodup := by
  simp only [cachePut, cacheKeys, List.map_append, List.map_cons, List.map_nil]
  rw [List.nodup_append]
  refine ⟨?_, List.nodup_singleton _, ?_⟩
  · exact List.Nodup.sublist (List.Sublist.map Prod.fst (List.filter_sublist c)) h
  · intro a ha
    simp only [List.mem_map] at ha
    obtain ⟨e, he, rfl⟩ := ha
    rw [List.mem_filter] at he
    have := he.2
    simp only [decide_eq_true_eq] at this
    simp [this]

/-- `cache.put` adds at most one entry. -/
theorem length_cachePut (c : Cache) (req : Request) (resp : Response) :
    (cachePut c req resp).length ≤ c.length + 1 := by
  simp only [cachePut, List.length_append, List.length_cons, List.length_nil]
  have := List.length_filter_le (fun e => decide (e.1 ≠ req)) c
  omega

/-- The eviction computation returns a sublist of the cache. -/
theorem limitCacheSizeCore_sublist (c : Cache) (n : Nat) :
    (limitCacheSizeCore c n).1.Sublist c := by
  by_cases h : n < (cacheKeys c).length
  · simp only [limitCacheSizeCore, if_pos h]
    rw [cacheDelete_eq_deleteKey, foldl_deleteKey]
    exact List.filter_sublist c
  · simp only [limitCacheSizeCore, if_neg h]
    exact List.Sublist.refl c

/-- Invariant carried through a run of dynamic-cache writes: key list
duplicate-free and entry count at most 50. -/
theorem dynamicWriteStep_invariant (writes : List (Request × Response)) (c : Cache)
    (hnd : (cacheKeys c).Nodup) (hlen : c.length ≤ 50) :
    (cacheKeys (writes.foldl dynamicWriteStep c)).Nodup ∧
      (writes.foldl dynamicWriteStep c).length ≤ 50 := by
  induction writes generalizing c with
  | nil => exact ⟨hnd, hlen⟩
  | cons w ws ih =>
    rw [List.foldl_cons]
    apply ih
    · exact List.Nodup.sublist
        (List.Sublist.map Prod.fst (limitCacheSizeCore_sublist _ _))
        (nodupKeys_cachePut c w.1 w.2 hnd)
    · have hput : (cachePut c w.1 w.2).length ≤ 51 := by
        have := length_cachePut c w.1 w.2
        omega
      by_cases hc : 50 < (cachePut c w.1 w.2).length
      · have := limitCacheSizeCore_overflow (cachePut c w.1 w.2) 50
          (nodupKeys_cachePut c w.1 w.2 hnd) hc
        simp only [dynamicWriteStep, MAX_DYNAMIC_CACHE_SIZE]
        omega
      · have : (cachePut c w.1 w.2).length ≤ 50 := by omega
        simp only [dynamicWriteStep, MAX_DYNAMIC_CACHE_SIZE,
          limitCacheSizeCore_noop _ _ this]
        omega

example : strIncludes "/es/checkout/cart" "/checkout" = true := by decide
example : strIncludes "/products/widget" "/checkout" = false := by decide
example : strEndsWith "/a/b.css" ".css" = true := by decide
example : ("x" ++ "-static" : String) = "x-static" := by decide
example : STATIC_CACHE = "shopify-theme-v1-static" := by decide
example : strStartsWith STATIC_CACHE "shopify-theme-" = true := by decide
example : isStaticAsset "/a/b.woff2" = true := by decide
example : isStaticAsset "/a/b.CSS" = false := by decide
example : isImage "/x/y.webp" = true := by decide
example : classifySpec "/a/b.woff2" = ReqClass.staticAsset := by decide
example : strIncludes offlineBody "Reintentar" = true := by decide

/-- Concrete 200 response used in concrete instantiations. -/
def resp200 : Response :=
  { status := 200
    statusText := "OK"
    headers := [("Content-Type", "text/css")]
    body := "body .x" }

/-- Concrete non-200 response used in concrete instantiations. -/
def resp404 : Response :=
  { status := 404
    statusText := "Not Found"
    headers := []
    body := "missing" }

/-- A static-asset request (`/assets/app.css`). -/
def reqAppCss : Request :=
  { method := "GET"
    url := "https://shop.example/assets/app.css"
    pathname := "/assets/app.css" }

/-- A dynamic-page request (`/products/widget`). -/
def reqWidget : Request :=
  { method := "GET"
    url := "https://shop.example/products/widget"
    pathname := "/products/widget" }

/-- A non-GET request on a cart-mutation path. -/
def reqPostCart : Request :=
  { method := "POST"
    url := "https://shop.example/cart/add"
    pathname := "/cart/add" }

/-- A dynamic cache holding 51 distinct keys, in insertion order. -/
def c51 : Cache :=
  (List.range 51).map (fun n =>
    ({ method := "GET", url := String.mk (List.replicate n 'a'), pathname := "/p" }, resp200))

/-- A storage whose static generation already holds `reqAppCss`. -/
def csStaticHit : CacheStorage := [(STATIC_CACHE, [(reqAppCss, resp200)])]

/-- A storage holding a stale prefixed generation, a current one, and an
unrelated cache. -/
def csOld : CacheStorage :=
  [("shopify-theme-v0-static", []), (STATIC_CACHE, [(reqAppCss, resp200)]), ("unrelated", [])]

/-- If a match against the cache opened under `name` succeeds, the open did not
create the cache, so the storage is unchanged by the open. -/
theorem cachesOpen_snd_of_match (cs : CacheStorage) (name : String) (req : Request)
    (resp : Response) (h : cacheMatch (cachesOpen cs name).1 req = some resp) :
    (cachesOpen cs name).2 = cs := by
  unfold cachesOpen at h ⊢
  cases hfind : cs.find? (fun e => decide (e.1 = name)) with
  | some e => rfl
  | none =>
    rw [hfind] at h
    simp [cacheMatch] at h

/-- C1: the spec claims that when the network fetch throws, `cacheFirst`
returns the cached entry when present and otherwise a synthesized response
with status 503. The source's catch branch is
`return cache.match(request) || new Response('Offline', { status: 503 })`:
`cache.match` returns a promise, an object that is always truthy, so the
`||` never takes its right-hand side — the 503 fallback is dead code and the
strategy resolves to `undefined` on a cache miss. At the failing input (empty
storage, network failing on a static-asset request) the strategy produces no
response at all instead of the claimed 503. -/
theorem C1_cacheFirst_offline_miss_yields_no_response :
    (cacheFirst (fun _ => none) [] reqAppCss).1 = none := by decide

/-- C2: after any sequence of successful dynamic-generation writes, each
followed by the eviction computation with bound 50, the entry count never
exceeds 50; and on any cache with duplicate-free keys whose count exceeds 50
the eviction deletes exactly the oldest `count − 50` keys, retaining exactly
the newest 50 entries (the insertion-order suffix). -/
theorem C2_eviction_invariant (writes : List (Request × Response)) (c : Cache)
    (hnd : (cacheKeys c).Nodup) (hlen : 50 < c.length) :
    (writes.foldl dynamicWriteStep []).length ≤ 50 ∧
      (limitCacheSizeCore c 50).1 = c.drop (c.length - 50) ∧
      ((limitCacheSizeCore c 50).1).length = 50 ∧
      (limitCacheSizeCore c 50).2 = (cacheKeys c).take (c.length - 50) := by
  refine ⟨?_, limitCacheSizeCore_overflow c 50 hnd hlen⟩
  exact (dynamicWriteStep_invariant writes [] (by simp [cacheKeys]) (by simp)).2

theorem C2_eviction_invariant_witness :
    (cacheKeys c51).Nodup ∧ 50 < c51.length ∧
      (([(reqWidget, resp200)].foldl dynamicWriteStep []).length ≤ 50 ∧
        (limitCacheSizeCore c51 50).1 = c51.drop (c51.length - 50) ∧
        ((limitCacheSizeCore c51 50).1).length = 50 ∧
        (limitCacheSizeCore c51 50).2 = (cacheKeys c51).take (c51.length - 50)) :=
  ⟨by decide, by decide,
    C2_eviction_invariant [(reqWidget, resp200)] c51 (by decide) (by decide)⟩

/-- C3: when the network fetch throws on a request with no dynamic-cache
entry, `networkFirst` returns the synthesized offline page: status 503,
statusText `Service Unavailable`, a `Content-Type: text/html` header, and an
HTML body containing the user-facing retry button. -/
theorem C3_networkFirst_offline_page
    (net : Request → Option Response) (cs : CacheStorage) (req : Request)
    (hnet : net req = none)
    (hmiss : cacheMatch (cachesOpen cs DYNAMIC_CACHE).1 req = none) :
    ∃ r : Response, (networkFirst net cs req).1 = some r ∧
      r.status = 503 ∧ r.statusText = "Service Unavailable" ∧
      headerGet r.headers "Content-Type" = some "text/html" ∧
      strIncludes r.body "<button onclick=\"location.reload()\">Reintentar</button>" = true := by
  refine ⟨offlineResponse, ?_, rfl, rfl, by decide, by decide⟩
  simp only [networkFirst, hnet, hmiss]

theorem C3_networkFirst_offline_page_witness :
    ((fun _ : Request => (none : Option Response)) reqWidget = none) ∧
      cacheMatch (cachesOpen [] DYNAMIC_CACHE).1 reqWidget = none ∧
      ∃ r : Response, (networkFirst (fun _ => none) [] reqWidget).1 = some r ∧
        r.status = 503 ∧ r.statusText = "Service Unavailable" ∧
        headerGet r.headers "Content-Type" = some "text/html" ∧
        strIncludes r.body "<button onclick=\"location.reload()\">Reintentar</button>" = true :=
  ⟨rfl, by decide,
    C3_networkFirst_offline_page (fun _ => none) [] reqWidget rfl (by decide)⟩

/-- C4: a non-GET request, or a GET request whose path contains an excluded
substring, makes the fetch listener return without `respondWith`: the request
passes through to the network, no cache operation is performed, and the
storage is untouched. -/
theorem C4_excluded_passthrough
    (net : Request → Option Response) (cs : CacheStorage) (req : Request)
    (h : req.method ≠ "GET" ∨ (req.method = "GET" ∧ isExcludedPath req.pathname = true)) :
    fetchHandler net cs req = FetchAction.passThrough ∧
      actionStorage cs (fetchHandler net cs req) = cs ∧
      actionOps (fetchHandler net cs req) = [] := by
  have hpass : fetchHandler net cs req = FetchAction.passThrough := by
    rcases h with h | ⟨hm, he⟩
    · simp [fetchHandler, h]
    · simp [fetchHandler, hm, he]
  refine ⟨hpass, ?_, ?_⟩
  · rw [hpass]; rfl
  · rw [hpass]; rfl

theorem C4_excluded_passthrough_witness :
    (reqPostCart.method ≠ "GET" ∨
        (reqPostCart.method = "GET" ∧ isExcludedPath reqPostCart.pathname = true)) ∧
      fetchHandler (fun _ => none) [] reqPostCart = FetchAction.passThrough ∧
      actionStorage [] (fetchHandler (fun _ => none) [] reqPostCart) = [] ∧
      actionOps (fetchHandler (fun _ => none) [] reqPostCart) = [] :=
  ⟨Or.inl (by decide),
    C4_excluded_passthrough (fun _ => none) [] reqPostCart (Or.inl (by decide))⟩

/-- C5: a GET static-asset or image request whose identity is already stored
in the static generation is answered from the cache: the fetch listener
responds with the stored snapshot, the storage is unchanged, and the trace
holds only the open and the lookup — no network fetch and no cache write. -/
theorem C5_cacheFirst_hit_serves_cache
    (net : Request → Option Response) (cs : CacheStorage) (req : Request) (resp : Response)
    (hmeth : req.method = "GET")
    (hexc : isExcludedPath req.pathname = false)
    (hclass : (isStaticAsset req.pathname || isImage req.pathname) = true)
    (hhit : cacheMatch (cachesOpen cs STATIC_CACHE).1 req = some resp) :
    fetchHandler net cs req =
      FetchAction.respondWith (some resp) cs
        [CacheOp.openGen STATIC_CACHE, CacheOp.read STATIC_CACHE req] := by
  have hs := cachesOpen_snd_of_match cs STATIC_CACHE req resp hhit
  have hcf : cacheFirst net cs req =
      (some resp, cs, [CacheOp.openGen STATIC_CACHE, CacheOp.read STATIC_CACHE req]) := by
    simp only [cacheFirst]
    rw [hhit, hs]
  by_cases hsa : isStaticAsset req.pathname = true
  · simp [fetchHandler, hmeth, hexc, hsa, hcf]
  · have hsa' : isStaticAsset req.pathname = false := by
      revert hsa; cases isStaticAsset req.pathname <;> simp
    have hi : isImage req.pathname = true := by
      revert hclass; rw [hsa']; simp
    simp [fetchHandler, hmeth, hexc, hsa', hi, hcf]

theorem C5_cacheFirst_hit_serves_cache_witness :
    reqAppCss.method = "GET" ∧
      isExcludedPath reqAppCss.pathname = false ∧
      (isStaticAsset reqAppCss.pathname || isImage reqAppCss.pathname) = true ∧
      cacheMatch (cachesOpen csStaticHit STATIC_CACHE).1 reqAppCss = some resp200 ∧
      fetchHandler (fun _ => none) csStaticHit reqAppCss =
        FetchAction.respondWith (some resp200) csStaticHit
          [CacheOp.openGen STATIC_CACHE, CacheOp.read STATIC_CACHE reqAppCss] :=
  ⟨rfl, by decide, by decide, by decide,
    C5_cacheFirst_hit_serves_cache (fun _ => none) csStaticHit reqAppCss resp200
      rfl (by decide) (by decide) (by decide)⟩

/-- C6: in both strategies a fetched network response is written into the
generation exactly when its status is 200: the strategy returns the original
network response, the trace holds a write for the request iff the status is
200, and on a non-200 status the storage is exactly what the initial
`caches.open` produced (no write). For `cacheFirst` the network is consulted
only on a cache miss, so the miss is assumed. -/
theorem C6_cache_iff_200
    (net : Request → Option Response) (cs : CacheStorage) (req : Request) (resp : Response)
    (hnet : net req = some resp)
    (hmiss : cacheMatch (cachesOpen cs STATIC_CACHE).1 req = none) :
    (cacheFirst net cs req).1 = some resp ∧
      (networkFirst net cs req).1 = some resp ∧
      ((CacheOp.write STATIC_CACHE req ∈ (cacheFirst net cs req).2.2) ↔ resp.status = 200) ∧
      ((CacheOp.write DYNAMIC_CACHE req ∈ (networkFirst net cs req).2.2) ↔ resp.status = 200) ∧
      (resp.status ≠ 200 →
        (cacheFirst net cs req).2.1 = (cachesOpen cs STATIC_CACHE).2 ∧
          (networkFirst net cs req).2.1 = (cachesOpen cs DYNAMIC_CACHE).2) := by
  by_cases h200 : resp.status = 200
  · refine ⟨?_, ?_, ?_, ?_, fun hne => absurd h200 hne⟩
    · simp [cacheFirst, hnet, hmiss, h200]
    · simp [networkFirst, hnet, h200]
    · simp [cacheFirst, hnet, hmiss, h200]
    · simp [networkFirst, hnet, h200]
  · refine ⟨?_, ?_, ?_, ?_, fun _ => ⟨?_, ?_⟩⟩
    · simp [cacheFirst, hnet, hmiss, h200]
    · simp [networkFirst, hnet, h200]
    · simp [cacheFirst, hnet, hmiss, h200]
    · simp [networkFirst, hnet, h200]
    · simp [cacheFirst, hnet, hmiss, h200]
    · simp [networkFirst, hnet, h200]

theorem C6_cache_iff_200_witness :
    ((fun _ : Request => some resp404) reqWidget = some resp404) ∧
      cacheMatch (cachesOpen [] STATIC_CACHE).1 reqWidget = none ∧
      ((cacheFirst (fun _ => some resp404) [] reqWidget).1 = some resp404 ∧
        (networkFirst (fun _ => some resp404) [] reqWidget).1 = some resp404 ∧
        ((CacheOp.write STATIC_CACHE reqWidget ∈
            (cacheFirst (fun _ => some resp404) [] reqWidget).2.2) ↔ resp404.status = 200) ∧
        ((CacheOp.write DYNAMIC_CACHE reqWidget ∈
            (networkFirst (fun _ => some resp404) [] reqWidget).2.2) ↔ resp404.status = 200) ∧
        (resp404.status ≠ 200 →
          (cacheFirst (fun _ => some resp404) [] reqWidget).2.1 =
              (cachesOpen [] STATIC_CACHE).2 ∧
            (networkFirst (fun _ => some resp404) [] reqWidget).2.1 =
              (cachesOpen [] DYNAMIC_CACHE).2)) :=
  ⟨rfl, by decide,
    C6_cache_iff_200 (fun _ => some resp404) [] reqWidget resp404 rfl (by decide)⟩

/-- C7: for a GET request that is not excluded, the source classifier agrees
with the spec's case-sensitive extension sets, and dispatch follows the
classification: static-asset and image requests go to `cacheFirst`, dynamic
pages to `networkFirst`. -/
theorem C7_classification_dispatch
    (net : Request → Option Response) (cs : CacheStorage) (req : Request)
    (hmeth : req.method = "GET") (hexc : isExcludedPath req.pathname = false) :
    (isStaticAsset req.pathname
        = staticExtsSpec.any (fun e => strEndsWith req.pathname e)) ∧
      (isImage req.pathname
        = imageExtsSpec.any (fun e => strEndsWith req.pathname e)) ∧
      (classifySpec req.pathname = ReqClass.staticAsset ∨
          classifySpec req.pathname = ReqClass.image →
        fetchHandler net cs req =
          FetchAction.respondWith (cacheFirst net cs req).1 (cacheFirst net cs req).2.1
            (cacheFirst net cs req).2.2) ∧
      (classifySpec req.pathname = ReqClass.dynamicPage →
        fetchHandler net cs req =
          FetchAction.respondWith (networkFirst net cs req).1 (networkFirst net cs req).2.1
            (networkFirst net cs req).2.2) := by
  have hs : isStaticAsset req.pathname
      = staticExtsSpec.any (fun e => strEndsWith req.pathname e) := by
    simp [isStaticAsset, staticExtsSpec, Bool.or_assoc]
  have hi : isImage req.pathname
      = imageExtsSpec.any (fun e => strEndsWith req.pathname e) := by
    simp [isImage, imageExtsSpec, Bool.or_assoc]
  refine ⟨hs, hi, ?_, ?_⟩
  · intro hcl
    by_cases h1 : staticExtsSpec.any (fun e => strEndsWith req.pathname e) = true
    · simp [fetchHandler, hmeth, hexc, hs, h1]
    · have h1' : staticExtsSpec.any (fun e => strEndsWith req.pathname e) = false := by
        revert h1; cases staticExtsSpec.any (fun e => strEndsWith req.pathname e) <;> simp
      have h2 : imageExtsSpec.any (fun e => strEndsWith req.pathname e) = true := by
        rcases hcl with hcl | hcl
        · exfalso
          cases h2 : imageExtsSpec.any (fun e => strEndsWith req.pathname e) <;>
            simp [classifySpec, h1', h2] at hcl
        · by_contra h2
          have h2' : imageExtsSpec.any (fun e => strEndsWith req.pathname e) = false := by
            revert h2; cases imageExtsSpec.any (fun e => strEndsWith req.pathname e) <;> simp
          simp [classifySpec, h1', h2'] at hcl
      simp [fetchHandler, hmeth, hexc, hs, hi, h1', h2]
  · intro hcl
    have h1' : staticExtsSpec.any (fun e => strEndsWith req.pathname e) = false := by
      by_contra h1
      have h1t : staticExtsSpec.any (fun e => strEndsWith req.pathname e) = true := by
        revert h1; cases staticExtsSpec.any (fun e => strEndsWith req.pathname e) <;> simp
      simp [classifySpec, h1t] at hcl
    have h2' : imageExtsSpec.any (fun e => strEndsWith req.pathname e) = false := by
      by_contra h2
      have h2t : imageExtsSpec.any (fun e => strEndsWith req.pathname e) = true := by
        revert h2; cases imageExtsSpec.any (fun e => strEndsWith req.pathname e) <;> simp
      simp [classifySpec, h1', h2t] at hcl
    simp [fetchHandler, hmeth, hexc, hs, hi, h1', h2']

theorem C7_classification_dispatch_witness :
    reqWidget.method = "GET" ∧
      isExcludedPath reqWidget.pathname = false ∧
      classifySpec reqWidget.pathname = ReqClass.dynamicPage ∧
      fetchHandler (fun _ => none) [] reqWidget =
        FetchAction.respondWith ((networkFirst (fun _ => none) [] reqWidget).1)
          ((networkFirst (fun _ => none) [] reqWidget).2.1)
          ((networkFirst (fun _ => none) [] reqWidget).2.2) :=
  ⟨rfl, by decide, by decide,
    (C7_classification_dispatch (fun _ => none) [] reqWidget rfl (by decide)).2.2.2
      (by decide)⟩

/-- C8: the activate listener deletes a cache exactly when its name starts
with the reserved prefix `shopify-theme-` and equals neither current tag
(the remaining storage is the filter by the negation of that predicate, the
retained entries untouched), so every prefixed name still enumerable after
activation is one of the two current generations. -/
theorem C8_activate_rotation (cs : CacheStorage) :
    (activateHandler cs).1 = cs.filter (fun e => !(shouldDeleteOnActivate e.1)) ∧
      ∀ e ∈ (activateHandler cs).1, strStartsWith e.1 "shopify-theme-" = true →
        e.1 = STATIC_CACHE ∨ e.1 = DYNAMIC_CACHE := by
  have hmain : (activateHandler cs).1
      = cs.filter (fun e => !(shouldDeleteOnActivate e.1)) := by
    unfold activateHandler
    simp only
    rw [cachesDeleteName_eq_deleteKey, foldl_deleteKey]
    apply List.filter_congr
    intro e he
    have hmem : e.1 ∈ cachesKeys cs := by
      simp only [cachesKeys]
      exact List.mem_map_of_mem Prod.fst he
    by_cases hd : shouldDeleteOnActivate e.1 = true
    · simp [List.mem_filter, hmem, hd]
    · have hd' : shouldDeleteOnActivate e.1 = false := by
        revert hd; cases shouldDeleteOnActivate e.1 <;> simp
      simp [List.mem_filter, hd']
  refine ⟨hmain, ?_⟩
  intro e he hpre
  rw [hmain, List.mem_filter] at he
  have hf : shouldDeleteOnActivate e.1 = false := by
    have := he.2
    revert this; cases shouldDeleteOnActivate e.1 <;> simp
  unfold shouldDeleteOnActivate at hf
  rw [hpre] at hf
  simp only [Bool.true_and, Bool.and_eq_false_iff, Bool.not_eq_false] at hf
  rcases hf with hf | hf
  · exact Or.inl (by simpa using hf)
  · exact Or.inr (by simpa using hf)

theorem C8_activate_rotation_witness :
    (activateHandler csOld).1
        = csOld.filter (fun e => !(shouldDeleteOnActivate e.1)) ∧
      (activateHandler csOld).1
        = [(STATIC_CACHE, [(reqAppCss, resp200)]), ("unrelated", [])] ∧
      ((STATIC_CACHE, ([(reqAppCss, resp200)] : Cache)) ∈ (activateHandler csOld).1 ∧
        strStartsWith STATIC_CACHE "shopify-theme-" = true) ∧
      (STATIC_CACHE = STATIC_CACHE ∨ STATIC_CACHE = DYNAMIC_CACHE) :=
  ⟨(C8_activate_rotation csOld).1, by decide, ⟨by decide, by decide⟩,
    (C8_activate_rotation csOld).2 (STATIC_CACHE, [(reqAppCss, resp200)])
      (by decide) (by decide)⟩

/-- C9: the `clearCache` command deletes every cache regardless of its tag:
the storage is empty afterwards, so any subsequent lookup in any generation
(including the static and dynamic ones) finds nothing. -/
theorem C9_clearCache_purges_all (cs : CacheStorage) :
    (clearCacheHandler cs).1 = [] ∧
      ∀ (name : String) (req : Request),
        cacheMatch (cachesOpen (clearCacheHandler cs).1 name).1 req = none := by
  have hempty : (clearCacheHandler cs).1 = [] := by
    unfold clearCacheHandler
    simp only
    rw [cachesDeleteName_eq_deleteKey, foldl_deleteKey]
    rw [List.filter_eq_nil_iff]
    intro e he
    simp only [cachesKeys, decide_eq_true_eq, Decidable.not_not]
    exact List.mem_map_of_mem Prod.fst he
  refine ⟨hempty, ?_⟩
  intro name req
  rw [hempty]
  rfl

/-- C10: a message whose action is neither `skipWaiting` nor `clearCache`
leaves the storage unchanged, performs no cache operation, and does not call
`skipWaiting`. -/
theorem C10_message_other_noop (cs : CacheStorage) (data : MessageData)
    (h1 : data.action ≠ "skipWaiting") (h2 : data.action ≠ "clearCache") :
    messageHandler cs data = (cs, [], false) := by
  unfold messageHandler
  rw [if_neg h2]
  simp [h1]

theorem C10_message_other_noop_witness :
    ((⟨"ping"⟩ : MessageData).action ≠ "skipWaiting") ∧
      ((⟨"ping"⟩ : MessageData).action ≠ "clearCache") ∧
      messageHandler [(STATIC_CACHE, [(reqAppCss, resp200)])] ⟨"ping"⟩ =
        ([(STATIC_CACHE, [(reqAppCss, resp200)])], [], false) :=
  ⟨by decide, by decide,
    C10_message_other_noop [(STATIC_CACHE, [(reqAppCss, resp200)])] ⟨"ping"⟩
      (by decide) (by decide)⟩
